import Mathlib

/-!
Verification of the document-manager client core.

This file gives a shallow embedding of the repository's core logic:
the observable state container (src/core/state/Store.ts, AppStore.ts),
the HTTP client (src/core/services/ApiService.ts), the reconnecting
WebSocket client (WebSocketService.ts), the document coordinator
(DocumentService.ts) and the document model (Document.ts), together
with theorems settling the behavioural properties stated in the
project specification.

Conventions of the embedding:
* JavaScript objects become Lean structures; `Partial<T>` becomes a
  structure of `Option` fields and the object-spread merge becomes an
  explicit field-wise override (`applyPatch`).
* `JSON.stringify` becomes an executable `serializeState : AppState → String`
  that prints the fields in declaration order, exactly as the spread-copied
  objects of the source serialize.
* Environment inputs (HTTP responses, JSON bodies, `crypto.randomUUID()`,
  `new Date(...)`, `Math.random()` derived data, WebSocket events) are
  threaded as explicit parameters, so every function is pure and executable.
* Callbacks are observable through their invocation lists: a store step
  returns the list of (listener, delivered state) pairs, the WebSocket
  handlers return the emitted status changes and the scheduled delay.
-/

namespace DocMgr

/-! ### Data model (src/types/index.ts) -/

structure Contributor where
  name : String
  avatar : String
deriving DecidableEq

structure Attachment where
  name : String
  size : Nat
deriving DecidableEq

structure Document where
  id : String
  name : String
  contributors : List Contributor
  version : Int
  createdAt : String
  attachments : List Attachment
deriving DecidableEq

inductive SortOption where
  | name
  | version
  | createdAt
deriving DecidableEq

inductive SortOrder where
  | asc
  | desc
deriving DecidableEq

inductive ViewMode where
  | list
  | grid
deriving DecidableEq

structure AppState where
  documents : List Document
  isLoading : Bool
  error : Option String
  sortBy : SortOption
  sortOrder : SortOrder
  viewMode : ViewMode
deriving DecidableEq

inductive NotifSeverity where
  | success
  | error
  | info
deriving DecidableEq

structure NotificationData where
  message : String
  type : NotifSeverity
  duration : Option Nat
deriving DecidableEq

structure WebSocketMessage where
  Timestamp : String
  UserID : String
  UserName : String
  DocumentID : String
  DocumentTitle : String
deriving DecidableEq

/-! ### JSON serialization (model of JSON.stringify on AppState values)

`Store.hasStateChanged` compares `JSON.stringify(prevState)` with
`JSON.stringify(newState)`.  Both states are spread-copies of plain
records whose keys appear in declaration order, so stringification is
deterministic; we model it by printing the record fields in that order. -/

def jsonEscapeChar (c : Char) : String :=
  if c = '\\' then "\\\\"
  else if c = '\x22' then "\\\x22"
  else if c = '\n' then "\\n"
  else if c = '\t' then "\\t"
  else if c = '\r' then "\\r"
  else String.singleton c

def jsonEscape (s : String) : String :=
  String.join (s.toList.map jsonEscapeChar)

def jsonStr (s : String) : String :=
  "\x22" ++ jsonEscape s ++ "\x22"

def jsonArr (items : List String) : String :=
  "[" ++ String.intercalate "," items ++ "]"

def serializeContributor (c : Contributor) : String :=
  "\x7b" ++ jsonStr "name" ++ ":" ++ jsonStr c.name ++ ","
    ++ jsonStr "avatar" ++ ":" ++ jsonStr c.avatar ++ "\x7d"

def serializeAttachment (a : Attachment) : String :=
  "\x7b" ++ jsonStr "name" ++ ":" ++ jsonStr a.name ++ ","
    ++ jsonStr "size" ++ ":" ++ toString a.size ++ "\x7d"

def serializeDocument (d : Document) : String :=
  "\x7b" ++ jsonStr "id" ++ ":" ++ jsonStr d.id ++ ","
    ++ jsonStr "name" ++ ":" ++ jsonStr d.name ++ ","
    ++ jsonStr "contributors" ++ ":" ++ jsonArr (d.contributors.map serializeContributor) ++ ","
    ++ jsonStr "version" ++ ":" ++ toString d.version ++ ","
    ++ jsonStr "createdAt" ++ ":" ++ jsonStr d.createdAt ++ ","
    ++ jsonStr "attachments" ++ ":" ++ jsonArr (d.attachments.map serializeAttachment) ++ "\x7d"

def serializeSortOption : SortOption → String
  | .name => jsonStr "name"
  | .version => jsonStr "version"
  | .createdAt => jsonStr "createdAt"

def serializeSortOrder : SortOrder → String
  | .asc => jsonStr "asc"
  | .desc => jsonStr "desc"

def serializeViewMode : ViewMode → String
  | .list => jsonStr "list"
  | .grid => jsonStr "grid"

def serializeError : Option String → String
  | none => "null"
  | some s => jsonStr s

def serializeBool : Bool → String
  | true => "true"
  | false => "false"

def serializeState (st : AppState) : String :=
  "\x7b" ++ jsonStr "documents" ++ ":" ++ jsonArr (st.documents.map serializeDocument) ++ ","
    ++ jsonStr "isLoading" ++ ":" ++ serializeBool st.isLoading ++ ","
    ++ jsonStr "error" ++ ":" ++ serializeError st.error ++ ","
    ++ jsonStr "sortBy" ++ ":" ++ serializeSortOption st.sortBy ++ ","
    ++ jsonStr "sortOrder" ++ ":" ++ serializeSortOrder st.sortOrder ++ ","
    ++ jsonStr "viewMode" ++ ":" ++ serializeViewMode st.viewMode ++ "\x7d"

/-! ### Store (src/core/state/Store.ts)

`Store<T>.setState(partial)` spreads the partial over the current state
and notifies every subscribed listener with a copy of the new state when
`JSON.stringify` of the previous and new snapshots differ.  The generic
merge (object spread) and serializer (JSON.stringify) are parameters of
the embedding; the listener set is a list of abstract listener labels and
the observable effect of `notifyListeners` is the list of
(listener, delivered state) pairs. -/

def storeSetState {α π L : Type} (mergeStates : α → π → α) (stringify : α → String)
    (st : α) (p : π) (listeners : List L) : α × List (L × α) :=
  let newState := mergeStates st p
  if stringify st = stringify newState then
    (newState, [])
  else
    (newState, listeners.map (fun l => (l, newState)))

/-! ### AppStore (src/core/state/AppStore.ts)

`Partial<AppState>` and the object-spread merge `\x7b ...state, ...partial \x7d`. -/

structure AppStatePatch where
  documents : Option (List Document) := none
  isLoading : Option Bool := none
  error : Option (Option String) := none
  sortBy : Option SortOption := none
  sortOrder : Option SortOrder := none
  viewMode : Option ViewMode := none

def applyPatch (st : AppState) (p : AppStatePatch) : AppState where
  documents := p.documents.getD st.documents
  isLoading := p.isLoading.getD st.isLoading
  error := p.error.getD st.error
  sortBy := p.sortBy.getD st.sortBy
  sortOrder := p.sortOrder.getD st.sortOrder
  viewMode := p.viewMode.getD st.viewMode

def initialState : AppState where
  documents := []
  isLoading := false
  error := none
  sortBy := .createdAt
  sortOrder := .desc
  viewMode := .list

/-- The post-merge state of an AppStore `setState` call (the notification
side is handled by `storeSetState`; the state transition itself does not
depend on the listener set). -/
def appSetState (st : AppState) (p : AppStatePatch) : AppState :=
  applyPatch st p

def setDocuments (st : AppState) (documents : List Document) : AppState :=
  appSetState st { documents := some documents, error := some none }

def addDocument (st : AppState) (document : Document) : AppState :=
  appSetState st { documents := some (document :: st.documents) }

def setLoading (st : AppState) (isLoading : Bool) : AppState :=
  appSetState st { isLoading := some isLoading }

def setError (st : AppState) (error : Option String) : AppState :=
  appSetState st { error := some error, isLoading := some false }

def setSortBy (st : AppState) (sortBy : SortOption) : AppState :=
  appSetState st { sortBy := some sortBy }

def setSortOrder (st : AppState) (sortOrder : SortOrder) : AppState :=
  appSetState st { sortOrder := some sortOrder }

def setViewMode (st : AppState) (viewMode : ViewMode) : AppState :=
  appSetState st { viewMode := some viewMode }

def toggleViewMode (st : AppState) : AppState :=
  appSetState st
    { viewMode := some (if st.viewMode = .list then .grid else .list) }

def clearError (st : AppState) : AppState :=
  appSetState st { error := some none }

/-! ### Theorems on the store and AppStore -/

/-- C3: For every state type, every current state, every partial merge and
every listener set, the listeners notified by `setState` are characterized
by serialized-form change: when the serialized post-merge state equals the
serialized pre-merge state there are zero notifications, otherwise every
subscriber is notified exactly once with the new state.  In particular,
for the AppState instantiation, a merge that sets `documents` to the very
same array contents triggers zero notifications. -/
theorem setState_notifies_iff_serialized_changed :
    (∀ {α π L : Type} (mergeStates : α → π → α) (stringify : α → String)
        (st : α) (p : π) (listeners : List L),
      (storeSetState mergeStates stringify st p listeners).1 = mergeStates st p ∧
      (storeSetState mergeStates stringify st p listeners).2 =
        (if stringify (mergeStates st p) = stringify st then []
         else listeners.map (fun l => (l, mergeStates st p)))) ∧
    (∀ {L : Type} (st : AppState) (listeners : List L),
      (storeSetState applyPatch serializeState st
        { documents := some st.documents } listeners).2 = []) := by
  constructor
  · intro α π L mergeStates stringify st p listeners
    constructor
    · by_cases hc : stringify st = stringify (mergeStates st p) <;>
        simp [storeSetState, hc]
    · by_cases hc : stringify st = stringify (mergeStates st p)
      · rw [if_pos hc.symm]
        simp [storeSetState, hc]
      · rw [if_neg (fun hh => hc hh.symm)]
        simp [storeSetState, hc]
  · intro L st listeners
    have h : applyPatch st { documents := some st.documents } = st := rfl
    simp only [storeSetState, h]
    simp

/-- C5: `addDocument` prepends the new document: the post-state documents
list is exactly the new document followed by the previous entries in the
same order (so the count grows by exactly one and no existing entry is
removed or modified), and every other state field is unchanged. -/
theorem addDocument_prepends :
    ∀ (st : AppState) (d : Document),
      (addDocument st d).documents = d :: st.documents ∧
      (addDocument st d).documents.length = st.documents.length + 1 ∧
      (addDocument st d).isLoading = st.isLoading ∧
      (addDocument st d).error = st.error ∧
      (addDocument st d).sortBy = st.sortBy ∧
      (addDocument st d).sortOrder = st.sortOrder ∧
      (addDocument st d).viewMode = st.viewMode := by
  intro st d
  simp [addDocument, appSetState, applyPatch]

/-- C6: for every prior state (in particular states with `isLoading = true`)
and every message, `setError msg` yields a state with `error = msg` and
`isLoading = false`. -/
theorem setError_clears_loading :
    ∀ (st : AppState) (msg : Option String),
      (setError st msg).error = msg ∧ (setError st msg).isLoading = false := by
  intro st msg
  simp [setError, appSetState, applyPatch]

/-! ### getSortedDocuments (src/core/state/AppStore.ts)

The source copies the documents array and sorts it with a comparator:
`localeCompare` on names (modelled as the lexicographic order on strings),
numeric difference on versions, and difference of `new Date(..).getTime()`
values on creation timestamps (the date parser is threaded as an explicit
`getTime` parameter); the comparison result is negated when
`sortOrder === 'desc'`.  JavaScript `Array.prototype.sort` is a stable
comparator sort, embedded as `List.insertionSort` on the comparator's
at-most relation. -/

def strCmp (a b : String) : Int :=
  if a < b then -1 else if b < a then 1 else 0

def docCompare (getTime : String → Int) : SortOption → Document → Document → Int
  | .name, a, b => strCmp a.name b.name
  | .version, a, b => a.version - b.version
  | .createdAt, a, b => getTime a.createdAt - getTime b.createdAt

def docComparator (getTime : String → Int) (sortBy : SortOption) :
    SortOrder → Document → Document → Int
  | .desc, a, b => -(docCompare getTime sortBy a b)
  | .asc, a, b => docCompare getTime sortBy a b

def docLe (getTime : String → Int) (sortBy : SortOption) (sortOrder : SortOrder)
    (a b : Document) : Prop :=
  docComparator getTime sortBy sortOrder a b ≤ 0

instance instDecidableDocLe (getTime : String → Int) (sortBy : SortOption)
    (sortOrder : SortOrder) (a b : Document) :
    Decidable (docLe getTime sortBy sortOrder a b) :=
  inferInstanceAs (Decidable (docComparator getTime sortBy sortOrder a b ≤ 0))

def getSortedDocuments (getTime : String → Int) (st : AppState) : List Document :=
  st.documents.insertionSort (docLe getTime st.sortBy st.sortOrder)

lemma strCmp_neg (a b : String) : strCmp b a = -(strCmp a b) := by
  unfold strCmp
  rcases lt_trichotomy a b with h | h | h
  · simp [h, h.not_lt]
  · subst h
    simp
  · simp [h, h.not_lt]

lemma strCmp_nonpos (a b : String) : strCmp a b ≤ 0 ↔ a ≤ b := by
  unfold strCmp
  rcases lt_trichotomy a b with h | h | h
  · simp [h, h.le, h.not_lt]
  · subst h
    simp
  · simp [h, h.not_lt, h.not_le]

lemma docCompare_neg (getTime : String → Int) (sortBy : SortOption) (a b : Document) :
    docCompare getTime sortBy b a = -(docCompare getTime sortBy a b) := by
  cases sortBy
  · exact strCmp_neg a.name b.name
  · simp [docCompare]
  · simp [docCompare]

lemma docCompare_trans (getTime : String → Int) (sortBy : SortOption) {a b c : Document} :
    docCompare getTime sortBy a b ≤ 0 → docCompare getTime sortBy b c ≤ 0 →
    docCompare getTime sortBy a c ≤ 0 := by
  cases sortBy
  · simp only [docCompare, strCmp_nonpos]
    exact le_trans
  · simp only [docCompare]
    omega
  · simp only [docCompare]
    omega

lemma docLe_desc (getTime : String → Int) (sortBy : SortOption) (a b : Document) :
    docLe getTime sortBy .desc a b ↔ docCompare getTime sortBy b a ≤ 0 := by
  simp only [docLe, docComparator]
  rw [docCompare_neg]
  omega

lemma docLe_total (getTime : String → Int) (sortBy : SortOption) (sortOrder : SortOrder)
    (a b : Document) :
    docLe getTime sortBy sortOrder a b ∨ docLe getTime sortBy sortOrder b a := by
  have h := docCompare_neg getTime sortBy a b
  cases sortOrder
  · simp only [docLe, docComparator]
    omega
  · simp only [docLe, docComparator]
    omega

lemma docLe_trans (getTime : String → Int) (sortBy : SortOption) (sortOrder : SortOrder)
    {a b c : Document} :
    docLe getTime sortBy sortOrder a b → docLe getTime sortBy sortOrder b c →
    docLe getTime sortBy sortOrder a c := by
  cases sortOrder
  · exact docCompare_trans getTime sortBy
  · rw [docLe_desc, docLe_desc, docLe_desc]
    intro h1 h2
    exact docCompare_trans getTime sortBy h2 h1

def sampleDoc (i : String) (v : Int) : Document :=
  { id := i, name := i, contributors := [], version := v, createdAt := "", attachments := [] }

def versionSortInput : List Document :=
  [sampleDoc "a" 3, sampleDoc "b" 1, sampleDoc "c" 2]

def ascVersionState : AppState :=
  { documents := versionSortInput, isLoading := false, error := none,
    sortBy := .version, sortOrder := .asc, viewMode := .list }

def descVersionState : AppState :=
  { documents := versionSortInput, isLoading := false, error := none,
    sortBy := .version, sortOrder := .desc, viewMode := .list }

/-- C4: `getSortedDocuments` returns a permutation of the documents that is
pairwise ordered by the active comparator (lexicographic for `name`,
numeric for `version`, chronological for `createdAt`, reversed when
`sortOrder` is `desc`), and the order is stable: a pair that appears in
order in the input and has equal sort keys still appears in that order in
the output.  Concretely, sorting versions [3,1,2] ascending yields
[1,2,3] and descending yields [3,2,1]. -/
theorem getSortedDocuments_spec :
    (∀ (getTime : String → Int) (st : AppState),
      (getSortedDocuments getTime st).Perm st.documents ∧
      (getSortedDocuments getTime st).Pairwise (docLe getTime st.sortBy st.sortOrder) ∧
      (∀ a b : Document, List.Sublist [a, b] st.documents →
        docCompare getTime st.sortBy a b = 0 →
        List.Sublist [a, b] (getSortedDocuments getTime st))) ∧
    (getSortedDocuments (fun _ => 0) ascVersionState).map Document.version = [1, 2, 3] ∧
    (getSortedDocuments (fun _ => 0) descVersionState).map Document.version = [3, 2, 1] := by
  refine ⟨fun getTime st => ⟨?_, ?_, ?_⟩, by decide, by decide⟩
  · exact List.perm_insertionSort _ _
  · letI : IsTotal Document (docLe getTime st.sortBy st.sortOrder) :=
      ⟨docLe_total getTime st.sortBy st.sortOrder⟩
    letI : IsTrans Document (docLe getTime st.sortBy st.sortOrder) :=
      ⟨fun a b c => docLe_trans getTime st.sortBy st.sortOrder⟩
    exact List.sorted_insertionSort _ _
  · intro a b hsub heq
    refine List.pair_sublist_insertionSort ?_ hsub
    cases hso : st.sortOrder <;> simp only [docLe, docComparator, heq] <;> omega

def tieDocA : Document :=
  { id := "A", name := "A", contributors := [], version := 7, createdAt := "", attachments := [] }

def tieDocB : Document :=
  { id := "B", name := "B", contributors := [], version := 7, createdAt := "", attachments := [] }

def tieState : AppState :=
  { documents := [tieDocA, tieDocB], isLoading := false, error := none,
    sortBy := .version, sortOrder := .desc, viewMode := .list }

/-- Witness for C4: at a concrete two-document state with equal versions the
stability clause applies, keeping the original relative order. -/
theorem getSortedDocuments_spec_witness :
    List.Sublist [tieDocA, tieDocB] (getSortedDocuments (fun _ => 0) tieState) :=
  (getSortedDocuments_spec.1 (fun _ => 0) tieState).2.2 tieDocA tieDocB
    (List.Sublist.refl _) (by decide)

/-! ### ApiService (src/core/services/ApiService.ts)

`fetch` outcomes are threaded as explicit inputs: a call either rejects
(network failure, `Except.error`) or resolves to a response carrying the
`ok` flag, the status code, and — for `fetchDocuments` — the result of
`response.json()` (a JSON array of documents, some other JSON value, or a
parse failure). -/

deriving instance DecidableEq for Except

structure HttpResponse where
  ok : Bool
  status : Nat
deriving DecidableEq

inductive JsonBody where
  | arr (docs : List Document)
  | notArr
  | malformed
deriving DecidableEq

inductive RetryError where
  | http (status : Nat)
  | network
deriving DecidableEq

def genericFetchMessage : String :=
  "Failed to fetch documents. Please check if the server is running."

/-- `ApiService.fetchDocuments`: one GET; a rejected fetch, a non-ok
response (the thrown HTTP error) and a failing `response.json()` are all
caught by the surrounding try/catch, which rethrows the generic message;
an ok response returns `Array.isArray(data) ? data : []`. -/
def fetchDocuments (outcome : Except Unit (HttpResponse × JsonBody)) :
    Except String (List Document) :=
  match outcome with
  | .error _ => .error genericFetchMessage
  | .ok (response, body) =>
    if !response.ok then
      .error genericFetchMessage
    else
      match body with
      | .arr data => .ok data
      | .notArr => .ok []
      | .malformed => .error genericFetchMessage

/-- The retry loop of `ApiService.retryFetch`, one iteration per attempt.
`attempt` is the 1-based loop counter and `remaining` counts the further
iterations the loop guard still allows, so `remaining = maxRetries - attempt`
and `attempt < maxRetries` exactly when `remaining` is a successor.  The
result is the number of fetch calls performed together with the returned
response or the raised error.  Back-off delays are irrelevant to the
counted attempts and are not recorded. -/
def retryFetchGo (fetchAt : Nat → Except Unit HttpResponse) (attempt : Nat) :
    Nat → Nat × Except RetryError HttpResponse
  | 0 =>
    match fetchAt attempt with
    | .ok response =>
      if response.ok then (1, .ok response)
      else (1, .error (.http response.status))
    | .error _ => (1, .error .network)
  | remaining + 1 =>
    match fetchAt attempt with
    | .ok response =>
      if response.ok then (1, .ok response)
      else if response.status ≥ 500 then
        let rest := retryFetchGo fetchAt (attempt + 1) remaining
        (rest.1 + 1, rest.2)
      else
        let rest := retryFetchGo fetchAt (attempt + 1) remaining
        (rest.1 + 1, rest.2)
    | .error _ =>
      let rest := retryFetchGo fetchAt (attempt + 1) remaining
      (rest.1 + 1, rest.2)

/-- `ApiService.retryFetch` for `maxRetries ≥ 1` (the source's loop runs
attempts 1 .. maxRetries).  Note that in the source the non-5xx branch
`throw new Error(...)` is raised inside the `try` block, so it lands in the
same `catch` as a network failure and is retried whenever
`attempt < maxRetries`; the two non-ok branches of `retryFetchGo` are
therefore behaviourally identical. -/
def retryFetch (fetchAt : Nat → Except Unit HttpResponse) (maxRetries : Nat) :
    Nat × Except RetryError HttpResponse :=
  retryFetchGo fetchAt 1 (maxRetries - 1)

/-- C1: evaluation of `retryFetch` with `maxRetries = 3` at the two endpoints
named by the claim.  Against an all-500 endpoint it performs 3 attempts and
raises the HTTP 500 error on the 3rd, as claimed; against an all-404
endpoint it also performs 3 attempts — not 1 — because the thrown 4xx error
is caught by the surrounding catch block and retried. -/
theorem retryFetch_attempt_counts :
    retryFetch (fun _ => .ok { ok := false, status := 500 }) 3 =
      (3, .error (.http 500)) ∧
    retryFetch (fun _ => .ok { ok := false, status := 404 }) 3 =
      (3, .error (.http 404)) := by
  decide

/-- C2 counterexample: a 2xx response whose JSON body is not an array does
not raise — `fetchDocuments` returns the empty array instead of the generic
failure. -/
theorem fetchDocuments_nonArray_returns_empty :
    fetchDocuments (.ok ({ ok := true, status := 200 }, .notArr)) = .ok [] ∧
    fetchDocuments (.ok ({ ok := true, status := 200 }, .notArr)) ≠
      .error genericFetchMessage := by
  decide

/-- C2 (amended): a rejected fetch, a non-2xx response, and a JSON parse
failure each raise the generic "failed to fetch documents" error (the
underlying cause is not part of the result); a 2xx array body is returned
as-is and a 2xx non-array body yields the empty array, not an error. -/
theorem fetchDocuments_spec :
    ∀ (status : Nat) (body : JsonBody) (docs : List Document),
      fetchDocuments (.error ()) = .error genericFetchMessage ∧
      fetchDocuments (.ok ({ ok := false, status := status }, body)) =
        .error genericFetchMessage ∧
      fetchDocuments (.ok ({ ok := true, status := status }, .malformed)) =
        .error genericFetchMessage ∧
      fetchDocuments (.ok ({ ok := true, status := status }, .arr docs)) = .ok docs ∧
      fetchDocuments (.ok ({ ok := true, status := status }, .notArr)) = .ok [] := by
  intro status body docs
  exact ⟨rfl, rfl, rfl, rfl, rfl⟩

/-! ### WebSocketService (src/core/services/WebSocketService.ts)

The mutable connection state of the client is `reconnectAttempts` and
`isDestroyed`; `maxReconnectAttempts` is the constant 5 and
`reconnectDelay` (the constant 1000 in the source) is threaded as an
explicit base-delay parameter.  Each event handler returns the updated
state, the statuses it pushes to `notifyStatusChange`, and the delay it
hands to `setTimeout`, if any. -/

def maxReconnectAttempts : Nat := 5

structure WSState where
  reconnectAttempts : Nat
  isDestroyed : Bool
deriving DecidableEq

inductive ConnStatus where
  | connected
  | disconnected
  | connecting
  | error
deriving DecidableEq

def wsInitial : WSState :=
  { reconnectAttempts := 0, isDestroyed := false }

/-- `scheduleReconnect`: do nothing when destroyed or the attempt cap is
reached; otherwise increment the counter and schedule a reconnect after
`reconnectDelay * 2 ^ (reconnectAttempts - 1)` milliseconds. -/
def scheduleReconnect (reconnectDelay : Nat) (s : WSState) : WSState × Option Nat :=
  if s.isDestroyed ∨ s.reconnectAttempts ≥ maxReconnectAttempts then
    (s, none)
  else
    let attempts := s.reconnectAttempts + 1
    ({ s with reconnectAttempts := attempts },
     some (reconnectDelay * 2 ^ (attempts - 1)))

/-- The `onopen` handler: reset the attempt counter, report Connected. -/
def handleOpen (s : WSState) : WSState × ConnStatus :=
  ({ s with reconnectAttempts := 0 }, .connected)

/-- The `onclose` handler: report Disconnected, and when the client is not
torn down and the closure was not the clean code 1000, schedule a
reconnect. -/
def handleClose (reconnectDelay : Nat) (code : Nat) (s : WSState) :
    WSState × ConnStatus × Option Nat :=
  if ¬s.isDestroyed ∧ code ≠ 1000 then
    let schedule := scheduleReconnect reconnectDelay s
    (schedule.1, .disconnected, schedule.2)
  else
    (s, .disconnected, none)

/-- The `onerror` handler: report the Error status.  The handler body only
calls `notifyStatusChange('error')`; it does not call `scheduleReconnect`. -/
def handleTransportError (s : WSState) : WSState × ConnStatus × Option Nat :=
  (s, .error, none)

/-- `n` consecutive failed connection attempts: each failure runs
`scheduleReconnect` once; the scheduled delays are collected in order. -/
def failedAttempts (reconnectDelay : Nat) (s : WSState) : Nat → WSState × List (Option Nat)
  | 0 => (s, [])
  | n + 1 =>
    let schedule := scheduleReconnect reconnectDelay s
    let rest := failedAttempts reconnectDelay schedule.1 n
    (rest.1, schedule.2 :: rest.2)

/-- C8: with base delay D, the reconnect delays scheduled after the 1st,
2nd and 3rd consecutive failed attempts are D, 2D and 4D; after five
consecutive failures nothing further is scheduled (a 6th failure schedules
`none`, so no 6th attempt occurs), and a successful open resets the
attempt counter to zero. -/
theorem scheduleReconnect_backoff :
    ∀ D : Nat,
      (failedAttempts D wsInitial 3).2 = [some D, some (2 * D), some (4 * D)] ∧
      (failedAttempts D wsInitial 6).2 =
        [some D, some (2 * D), some (4 * D), some (8 * D), some (16 * D), none] ∧
      (∀ s : WSState, (handleOpen s).1.reconnectAttempts = 0) := by
  intro D
  refine ⟨?_, ?_, fun s => rfl⟩ <;>
    simp [failedAttempts, scheduleReconnect, wsInitial, maxReconnectAttempts,
      Nat.mul_comm, Nat.pow_succ, Nat.mul_assoc]

/-- C9 counterexample: at the initial state (not torn down, zero previous
attempts, so the cap is not reached) a transport-level error event emits
the Error status but schedules no reconnect — the `onerror` handler never
calls `scheduleReconnect`, contradicting the claim that the error event
schedules one. -/
theorem transportError_schedules_nothing :
    (handleTransportError wsInitial).2.1 = ConnStatus.error ∧
    (handleTransportError wsInitial).2.2 = none := by
  decide

/-- C9 (amended): a transport-level error event transitions the client to
the Error status but schedules nothing itself; the reconnect is scheduled
by the non-clean close event (code ≠ 1000) that follows the error, provided
the client is not torn down and the attempt cap is not reached. -/
theorem transportError_then_close_reconnects :
    ∀ (D code : Nat) (s : WSState),
      s.isDestroyed = false → s.reconnectAttempts < maxReconnectAttempts →
      code ≠ 1000 →
      (handleTransportError s).2.1 = ConnStatus.error ∧
      (handleTransportError s).2.2 = none ∧
      (handleClose D code (handleTransportError s).1).2.2 =
        some (D * 2 ^ s.reconnectAttempts) ∧
      (handleClose D code (handleTransportError s).1).1.reconnectAttempts =
        s.reconnectAttempts + 1 := by
  intro D code s hd ha hc
  refine ⟨rfl, rfl, ?_, ?_⟩ <;>
    simp [handleTransportError, handleClose, scheduleReconnect, hd, hc,
      Nat.not_le.mpr ha]

/-- Witness for the amended C9 at base delay 1000, close code 1006 and the
initial state: the delay 1000 × 2⁰ is scheduled by the close following the
error. -/
theorem transportError_then_close_reconnects_witness :
    (handleClose 1000 1006 (handleTransportError wsInitial).1).2.2 =
      some (1000 * 2 ^ (0 : Nat)) :=
  (transportError_then_close_reconnects 1000 1006 wsInitial rfl (by decide)
    (by decide)).2.2.1

/-! ### DocumentService (src/core/services/DocumentService.ts)

The live-update handler receives a WebSocket message; the randomly
generated extra contributors and attachments (`Math.random`-driven in the
source) are threaded as explicit inputs.  The handler returns the updated
state and the notifications pushed to `notifyCallbacks`. -/

def wsDocMessageText (msg : WebSocketMessage) : String :=
  "New document \x22" ++ msg.DocumentTitle ++ "\x22 created by " ++ msg.UserName

def handleDocumentCreated (st : AppState) (msg : WebSocketMessage)
    (extraContributors : List Contributor) (randomAttachments : List Attachment) :
    AppState × List NotificationData :=
  let contributors : List Contributor :=
    { name := msg.UserName, avatar := "" } :: extraContributors
  let newDocument : Document :=
    { id := msg.DocumentID, name := msg.DocumentTitle, contributors := contributors,
      version := 1, createdAt := msg.Timestamp, attachments := randomAttachments }
  let alreadyExists := st.documents.any (fun d => d.id == msg.DocumentID)
  if alreadyExists then
    (st, [])
  else
    (addDocument st newDocument,
     [{ message := wsDocMessageText msg, type := .info, duration := some 5000 }])

/-- C7: when a document with the inbound message's id already exists, the
live-update handler leaves the state untouched (so the document count is
unchanged) and emits no notification; otherwise it prepends the synthesized
document and emits exactly one notification. -/
theorem liveUpdate_dedup :
    ∀ (st : AppState) (msg : WebSocketMessage) (extraContributors : List Contributor)
      (randomAttachments : List Attachment),
      (st.documents.any (fun d => d.id == msg.DocumentID) = true →
        (handleDocumentCreated st msg extraContributors randomAttachments).1 = st ∧
        (handleDocumentCreated st msg extraContributors randomAttachments).1.documents.length =
          st.documents.length ∧
        (handleDocumentCreated st msg extraContributors randomAttachments).2 = []) ∧
      (st.documents.any (fun d => d.id == msg.DocumentID) = false →
        (handleDocumentCreated st msg extraContributors randomAttachments).1.documents =
          { id := msg.DocumentID, name := msg.DocumentTitle,
            contributors := { name := msg.UserName, avatar := "" } :: extraContributors,
            version := 1, createdAt := msg.Timestamp,
            attachments := randomAttachments } :: st.documents ∧
        (handleDocumentCreated st msg extraContributors randomAttachments).2.length = 1) := by
  intro st msg extraContributors randomAttachments
  constructor
  · intro h
    refine ⟨?_, ?_, ?_⟩ <;> simp [handleDocumentCreated, h]
  · intro h
    constructor <;>
      simp [handleDocumentCreated, h, addDocument, appSetState, applyPatch]

def liveMsgX : WebSocketMessage :=
  { Timestamp := "2024-01-01T00:00:00Z", UserID := "u1", UserName := "Alice",
    DocumentID := "X", DocumentTitle := "Doc X" }

def docX : Document :=
  { id := "X", name := "Doc X", contributors := [], version := 1,
    createdAt := "2024-01-01T00:00:00Z", attachments := [] }

def stateWithX : AppState :=
  { documents := [docX], isLoading := false, error := none,
    sortBy := .createdAt, sortOrder := .desc, viewMode := .list }

/-- Witness for C7: with document "X" present the handler emits nothing;
from the empty initial state the same message emits exactly one
notification. -/
theorem liveUpdate_dedup_witness :
    (handleDocumentCreated stateWithX liveMsgX [] []).2 = [] ∧
    (handleDocumentCreated initialState liveMsgX [] []).2.length = 1 :=
  ⟨((liveUpdate_dedup stateWithX liveMsgX [] []).1 (by decide)).2.2,
   ((liveUpdate_dedup initialState liveMsgX [] []).2 (by decide)).2⟩

/-! ### DocumentModel.createNew and createDocument
(src/core/models/Document.ts, src/core/services/DocumentService.ts)

`DocumentModel.createNew(name, contributors)` builds a document with a
fresh UUID, version 1, the current timestamp and an empty attachments
list; the UUID and timestamp are threaded as explicit inputs.
`DocumentService.createDocument(name, contributors, attachments)` calls
`createNew(name, contributors, attachments)` — but `createNew` declares
only two parameters, so the extra `attachments` argument is dropped at the
call — and prepends the result to state. -/

def createNew (name : String) (contributors : List Contributor)
    (uuid now : String) : Document :=
  { id := uuid, name := name, contributors := contributors, version := 1,
    createdAt := now, attachments := [] }

def createDocument (name : String) (contributors : List Contributor)
    (attachments : List Attachment) (uuid now : String) (st : AppState) :
    Document × AppState :=
  let newDocument := createNew name contributors uuid now
  (newDocument, addDocument st newDocument)

/-- C10: the `attachments` argument of `createDocument` is ignored — the
result is the same for any two attachment lists — and the constructed,
prepended document has an empty attachments list, version 1 and the
freshly generated UUID as id. -/
theorem createDocument_ignores_attachments :
    ∀ (name : String) (contributors : List Contributor)
      (ats1 ats2 : List Attachment) (uuid now : String) (st : AppState),
      createDocument name contributors ats1 uuid now st =
        createDocument name contributors ats2 uuid now st ∧
      (createDocument name contributors ats1 uuid now st).1.attachments = [] ∧
      (createDocument name contributors ats1 uuid now st).1.version = 1 ∧
      (createDocument name contributors ats1 uuid now st).1.id = uuid ∧
      (createDocument name contributors ats1 uuid now st).2.documents =
        createNew name contributors uuid now :: st.documents := by
  intro name contributors ats1 ats2 uuid now st
  refine ⟨rfl, rfl, rfl, rfl, ?_⟩
  simp [createDocument, createNew, addDocument, appSetState, applyPatch]

end DocMgr
